import Mathlib

/-!
Verification development for the `sparc2` county property-tax parser
repository.  The Python sources under `src/parsers/` are shallowly embedded
below: Python scalar values become an inductive `PyVal`, dicts become
association lists, fallible code returns `Except PyErr`, and the nested
transaction machinery becomes an explicit interpreter over a small program
syntax.  Floating point amounts are modelled as rationals; all comparisons
in the source keep their direction under this embedding.
-/

namespace Sparc2

/-- Python exception taxonomy of `src/parsers/exceptions.py` plus the
builtin exceptions the embedded code can raise.  `str(e)` on these
exceptions returns the message, modelled by `PyErr.str`. -/
inductive PyErr where
  | validationError (msg : String)
  | databaseError (msg : String)
  | dataFormatError (msg : String)
  | authenticationError (msg : String)
  | attributeError (msg : String)
  | typeError (msg : String)
  | valueError (msg : String)
  deriving Repr, DecidableEq

/-- `str(e)` for a single-argument exception: the message. -/
def PyErr.str : PyErr → String
  | .validationError m => m
  | .databaseError m => m
  | .dataFormatError m => m
  | .authenticationError m => m
  | .attributeError m => m
  | .typeError m => m
  | .valueError m => m

/-- Python scalar and container values as they appear in parser records:
`None`, bools, ints, floats, `Decimal`s, strings, lists and dicts.  Floats
and Decimals are modelled as rationals. -/
inductive PyVal where
  | none
  | bool (b : Bool)
  | int (z : ℤ)
  | float (q : ℚ)
  | decimal (q : ℚ)
  | str (s : List Char)
  | list (xs : List PyVal)
  | dict (d : List (String × PyVal))
  deriving Repr

/-- Python truthiness: `None`, `False`, zero numbers, empty strings and
empty containers are falsy, everything else truthy. -/
def PyVal.isTruthy : PyVal → Bool
  | .none => false
  | .bool b => b
  | .int z => z ≠ 0
  | .float q => q ≠ 0
  | .decimal q => q ≠ 0
  | .str s => !s.isEmpty
  | .list xs => !xs.isEmpty
  | .dict d => !d.isEmpty

/-- A parsed record: a Python dict from field name to value. -/
abbrev PyDict := List (String × PyVal)

/-- `data.get(key)` on a dict, returning `None` when the key is absent. -/
def pyGet (d : PyDict) (k : String) : PyVal :=
  match d.find? (fun kv => kv.1 = k) with
  | Option.some kv => kv.2
  | Option.none => PyVal.none

/-- `dict.get(key, default)`. -/
def pyGetD (d : PyDict) (k : String) (dflt : PyVal) : PyVal :=
  match d.find? (fun kv => kv.1 = k) with
  | Option.some kv => kv.2
  | Option.none => dflt

/-- A number usable in a Python comparison against numeric literals:
bools, ints, floats and Decimals coerce; anything else raises `TypeError`
when compared. -/
def PyVal.asNum : PyVal → Option ℚ
  | .bool b => Option.some (if b then 1 else 0)
  | .int z => Option.some (z : ℚ)
  | .float q => Option.some q
  | .decimal q => Option.some q
  | _ => Option.none

/-! ### Regex model for the anchored fixed-width patterns of the repository

Every pattern passed to `re.match` in the sources is a sequence of
fixed-width atoms — `\d{n}`, `[A-Z]{n}` and literal characters — starting
with `^` and (in every call site) ending with `$`.  `re.match` anchors at
the start of the string only; the `$` atom is what forces the match to
reach the end.  `RPattern.endAnchor` records whether the pattern ends in
`$`. -/

inductive RTok where
  | digit (n : Nat)
  | upper (n : Nat)
  | lit (c : Char)
  deriving Repr, DecidableEq

structure RPattern where
  toks : List RTok
  endAnchor : Bool
  deriving Repr, DecidableEq

/-- Width in characters consumed by one token. -/
def RTok.width : RTok → Nat
  | .digit n => n
  | .upper n => n
  | .lit _ => 1

def isUpperAZ (c : Char) : Bool := 'A' ≤ c && c ≤ 'Z'

/-- Match a token sequence against the front of a string; on success return
the unconsumed suffix.  Each token consumes a fixed number of characters,
so matching is deterministic (no backtracking needed). -/
def matchToks : List RTok → List Char → Option (List Char)
  | [], cs => Option.some cs
  | RTok.digit n :: ts, cs =>
      if (cs.take n).length = n && (cs.take n).all Char.isDigit then
        matchToks ts (cs.drop n)
      else Option.none
  | RTok.upper n :: ts, cs =>
      if (cs.take n).length = n && (cs.take n).all isUpperAZ then
        matchToks ts (cs.drop n)
      else Option.none
  | RTok.lit c :: ts, cs =>
      match cs with
      | [] => Option.none
      | c0 :: rest => if c0 = c then matchToks ts rest else Option.none

/-- `re.match(pattern, value)` truthiness: the token sequence must match at
the start of the string, and when the pattern ends in `$` the match must
also consume the whole string. -/
def reMatch (p : RPattern) (s : List Char) : Bool :=
  match matchToks p.toks s with
  | Option.some rest => !p.endAnchor || rest.isEmpty
  | Option.none => false

/-- `validate_string_format` of `src/parsers/utils/validation.py`:
`bool(re.match(pattern, value))`. -/
def validate_string_format (value : List Char) (pattern : RPattern) : Bool :=
  reMatch pattern value

/-- `^[A-Z]{3}-\d{5}$` — Civicsource property-id pattern. -/
def civicsourcePropertyIdPattern : RPattern :=
  ⟨[RTok.upper 3, RTok.lit '-', RTok.digit 5], true⟩

/-- `^\d{6}-\d{2}$` — DeKalb tax-id pattern (`validate_dekalb_id`). -/
def dekalbIdPattern : RPattern :=
  ⟨[RTok.digit 6, RTok.lit '-', RTok.digit 2], true⟩

/-- `^[A-Z]\d{2}$` — DeKalb property-class pattern. -/
def propertyClassPattern : RPattern :=
  ⟨[RTok.upper 1, RTok.digit 2], true⟩

/-- `^\d{2}-\d{3}-\d{3}$` — Clayton parcel-id pattern. -/
def claytonParcelIdPattern : RPattern :=
  ⟨[RTok.digit 2, RTok.lit '-', RTok.digit 3, RTok.lit '-', RTok.digit 3], true⟩

/-- `validate_dekalb_id`: `bool(re.match(r'^\d{6}-\d{2}$', value))`. -/
def validate_dekalb_id (value : List Char) : Bool :=
  reMatch dekalbIdPattern value

/-- Declarative specification of a token sequence consuming exactly a
string, used to state full-match semantics independently of the
executable matcher. -/
inductive ToksMatch : List RTok → List Char → Prop where
  | nil : ToksMatch [] []
  | digit (n : Nat) (cs rest : List Char) (ts : List RTok)
      (hlen : cs.length = n) (hall : cs.all Char.isDigit = true)
      (htail : ToksMatch ts rest) :
      ToksMatch (RTok.digit n :: ts) (cs ++ rest)
  | upper (n : Nat) (cs rest : List Char) (ts : List RTok)
      (hlen : cs.length = n) (hall : cs.all isUpperAZ = true)
      (htail : ToksMatch ts rest) :
      ToksMatch (RTok.upper n :: ts) (cs ++ rest)
  | lit (c : Char) (rest : List Char) (ts : List RTok)
      (htail : ToksMatch ts rest) :
      ToksMatch (RTok.lit c :: ts) (c :: rest)

/-! ### Leaf validation rules of `src/parsers/utils/validation.py` -/

/-- `validate_numeric_range`: `min_val <= value <= max_val`. -/
def validate_numeric_range (value min_val max_val : ℚ) : Bool :=
  min_val ≤ value && value ≤ max_val

/-- `validate_required_fields`:
`all(data.get(field) for field in required_fields)` — Python truthiness,
so a field that is present but maps to `0`, `False`, `""` or `[]` fails. -/
def validate_required_fields (data : PyDict) (required_fields : List String) : Bool :=
  required_fields.all (fun field => (pyGet data field).isTruthy)

/-- `validate_tax_amount`:
`isinstance(value, (float, Decimal)) and 0 < value < MAX_TAX_AMOUNT`
with `MAX_TAX_AMOUNT = 10_000_000`.  Python ints (and bools) are not
instances of `float` or `Decimal`, so they are rejected by the type
check regardless of magnitude. -/
def validate_tax_amount (value : PyVal) : Bool :=
  match value with
  | .float q => decide (0 < q) && decide (q < 10000000)
  | .decimal q => decide (0 < q) && decide (q < 10000000)
  | _ => false

/-! ### `validate_date_format`: CPython `strptime` with format `"%Y-%m-%d"` -/

/-- Numeric value of a digit string. -/
def charsToNat (cs : List Char) : ℕ :=
  cs.foldl (fun a c => 10 * a + (c.toNat - 48)) 0

/-- Day count of a month in Python's proleptic Gregorian calendar. -/
def daysInMonth (y m : ℕ) : ℕ :=
  if m = 2 then
    if (y % 4 = 0 && y % 100 ≠ 0) || y % 400 = 0 then 29 else 28
  else if m = 4 || m = 6 || m = 9 || m = 11 then 30 else 31

/-- Candidate parses of the `%m` directive — CPython `_strptime` compiles
it to the regex `1[0-2]|0[1-9]|[1-9]`; each candidate pairs the month
value with the unconsumed suffix (the regex engine may take any branch
that lets the rest of the pattern succeed). -/
def monthCands : List Char → List (ℕ × List Char)
  | c1 :: c2 :: rest =>
      (if c1 = '1' && ('0' ≤ c2 && c2 ≤ '2') then [(10 + (c2.toNat - 48), rest)] else []) ++
      (if c1 = '0' && ('1' ≤ c2 && c2 ≤ '9') then [(c2.toNat - 48, rest)] else []) ++
      (if '1' ≤ c1 && c1 ≤ '9' then [(c1.toNat - 48, c2 :: rest)] else [])
  | [c1] => if '1' ≤ c1 && c1 ≤ '9' then [(c1.toNat - 48, [])] else []
  | [] => []

/-- Candidate parses of the `%d` directive — regex
`3[01]|[12]\d|0[1-9]|[1-9]`. -/
def dayCands : List Char → List (ℕ × List Char)
  | c1 :: c2 :: rest =>
      (if c1 = '3' && (c2 = '0' || c2 = '1') then [(30 + (c2.toNat - 48), rest)] else []) ++
      (if ('1' ≤ c1 && c1 ≤ '2') && c2.isDigit then
        [(10 * (c1.toNat - 48) + (c2.toNat - 48), rest)] else []) ++
      (if c1 = '0' && ('1' ≤ c2 && c2 ≤ '9') then [(c2.toNat - 48, rest)] else []) ++
      (if '1' ≤ c1 && c1 ≤ '9' then [(c1.toNat - 48, c2 :: rest)] else [])
  | [c1] => if '1' ≤ c1 && c1 ≤ '9' then [(c1.toNat - 48, [])] else []
  | [] => []

/-- Success of CPython `datetime.strptime(value, "%Y-%m-%d")`: `%Y`
matches exactly four digits, the literal dashes must appear, `%m` and `%d`
follow the `_strptime` regexes above, the entire string must be consumed
("unconverted data remains" otherwise), and the `datetime` constructor
then requires year ≥ 1 and a day valid for the month. -/
def strptimeYmd (s : List Char) : Bool :=
  match s with
  | y1 :: y2 :: y3 :: y4 :: '-' :: rest =>
      ([y1, y2, y3, y4].all Char.isDigit) &&
      (let y := charsToNat [y1, y2, y3, y4]
       decide (1 ≤ y) &&
       (monthCands rest).any (fun mc =>
         match mc.2 with
         | '-' :: drest =>
             (dayCands drest).any (fun dc =>
               dc.2.isEmpty && dc.1 ≤ daysInMonth y mc.1)
         | _ => false))
  | _ => false

/-- `validate_date_format` with its default format string `"%Y-%m-%d"`:
`datetime.strptime` in a `try`, returning `False` exactly on
`ValueError`. -/
def validate_date_format (value : List Char) : Bool :=
  strptimeYmd value

/-! ### `float()` conversion used by the validate pipelines -/

/-- Python builtin `float` on a string, for the plain decimal forms the
parsers feed it: optional sign, integer digits, optional fractional part.
(Exponents and specials never arise from these records.) -/
def pyFloatOfStr (s : List Char) : Option ℚ :=
  let signed : Bool × List Char :=
    match s with
    | '-' :: rest => (true, rest)
    | '+' :: rest => (false, rest)
    | _ => (false, s)
  let body := signed.2
  let ip := body.takeWhile Char.isDigit
  let rest := body.dropWhile Char.isDigit
  let mag : Option ℚ :=
    match rest with
    | [] => if body.isEmpty then Option.none else Option.some (charsToNat ip : ℚ)
    | '.' :: frac =>
        if frac.all Char.isDigit && !(ip.isEmpty && frac.isEmpty) then
          Option.some ((charsToNat ip : ℚ) + (charsToNat frac : ℚ) / ((10 : ℚ) ^ frac.length))
        else Option.none
    | _ => Option.none
  mag.map (fun q => if signed.1 then -q else q)

/-- Python builtin `float(x)`: numbers coerce, strings parse or raise
`ValueError`, anything else raises `TypeError`. -/
def pyFloat : PyVal → Except PyErr ℚ
  | .bool b => .ok (if b then 1 else 0)
  | .int z => .ok (z : ℚ)
  | .float q => .ok q
  | .decimal q => .ok q
  | .str s =>
      match pyFloatOfStr s with
      | Option.some q => .ok q
      | Option.none => .error (.valueError "could not convert string to float")
  | _ => .error (.typeError "float() argument must be a string or a real number")

/-! ### `CivicsourceParser.validate` (src/parsers/civicsource.py) -/

def civicsourceRequiredFields : List String :=
  ["property_id", "address", "owner_name", "assessed_value", "tax_status", "coordinates"]

/-- The coordinate condition of `CivicsourceParser.validate`:
`isinstance(coords, dict) and validate_numeric_range(coords.get('lat', 0), -90, 90)
and validate_numeric_range(coords.get('lon', 0), -180, 180)` — with
Python's short-circuit `and`, and a `TypeError` when a coordinate value
cannot be compared to a number. -/
def coordsCheck (coords : PyVal) (latLo latHi lonLo lonHi : ℚ) : Except PyErr Bool :=
  match coords with
  | .dict cd =>
      match (pyGetD cd "lat" (PyVal.int 0)).asNum with
      | Option.none => .error (.typeError "comparison not supported between instances")
      | Option.some lat =>
          if !(validate_numeric_range lat latLo latHi) then .ok false
          else
            match (pyGetD cd "lon" (PyVal.int 0)).asNum with
            | Option.none => .error (.typeError "comparison not supported between instances")
            | Option.some lon => .ok (validate_numeric_range lon lonLo lonHi)
  | _ => .ok false

/-- Body of the `try` in `CivicsourceParser.validate`, check for check in
source order.  `data['field']` is `pyGet` — a `KeyError` is unreachable
for required fields once `validate_required_fields` has passed. -/
def civicsourceValidateBody (data : PyDict) : Except PyErr Bool := do
  if !(validate_required_fields data civicsourceRequiredFields) then
    throw (.validationError "Missing required fields")
  match pyGet data "property_id" with
  | .str s =>
      if !(validate_string_format s civicsourcePropertyIdPattern) then
        throw (.validationError "Invalid property ID format")
  | _ => throw (.typeError "expected string or bytes-like object")
  let av ← pyFloat (pyGet data "assessed_value")
  if !(validate_numeric_range av 0 1000000000) then
    throw (.validationError "Invalid assessed value")
  let cOk ← coordsCheck (pyGet data "coordinates") (-90) 90 (-180) 180
  if !cOk then
    throw (.validationError "Invalid coordinates")
  return true

/-- `CivicsourceParser.validate`: the body inside
`except Exception as e: raise ValidationError(str(e))`. -/
def civicsourceValidate (data : PyDict) : Except PyErr Bool :=
  match civicsourceValidateBody data with
  | .ok b => .ok b
  | .error e => .error (.validationError e.str)

/-! ### `DeKalbCivicsourceParser.validate` (src/parsers/civicsource_dekalb.py) -/

def dekalbRequiredFields : List String :=
  ["tax_id", "address", "owner_name", "assessed_value", "tax_status",
   "coordinates", "property_class", "total_due", "sale_date"]

/-- Body of the `try` in `DeKalbCivicsourceParser.validate`, check for
check in source order. -/
def dekalbValidateBody (data : PyDict) : Except PyErr Bool := do
  if !(validate_required_fields data dekalbRequiredFields) then
    throw (.validationError "Missing required fields")
  match pyGet data "tax_id" with
  | .str s =>
      if !(validate_dekalb_id s) then
        throw (.validationError "Invalid DeKalb County tax ID format")
  | _ => throw (.typeError "expected string or bytes-like object")
  let av ← pyFloat (pyGet data "assessed_value")
  if !(validate_numeric_range av 0 1000000000) then
    throw (.validationError "Invalid assessed value")
  -- DeKalb County latitude range 33.5..34.0 and longitude range -84.4..-83.8
  let cOk ← coordsCheck (pyGet data "coordinates") (mkRat 67 2) 34 (mkRat (-422) 5) (mkRat (-419) 5)
  if !cOk then
    throw (.validationError "Invalid coordinates for DeKalb County")
  match pyGet data "property_class" with
  | .str s =>
      if !(validate_string_format s propertyClassPattern) then
        throw (.validationError "Invalid property class format")
  | _ => throw (.typeError "expected string or bytes-like object")
  if !(validate_tax_amount (pyGet data "total_due")) then
    throw (.validationError "Invalid total due amount")
  match pyGet data "sale_date" with
  | .str s =>
      if !(validate_date_format s) then
        throw (.validationError "Invalid sale date format")
  | _ => throw (.typeError "strptime() argument 1 must be str")
  return true

/-- `DeKalbCivicsourceParser.validate`: the body inside
`except Exception as e: raise ValidationError(str(e))`. -/
def dekalbValidate (data : PyDict) : Except PyErr Bool :=
  match dekalbValidateBody data with
  | .ok b => .ok b
  | .error e => .error (.validationError e.str)

/-! ### Row transforms (src/parsers/clayton.py, src/parsers/civicsource.py) -/

/-- The characters removed by Python `str.strip()` with no argument
(the ASCII whitespace arising in these spreadsheet cells). -/
def pyIsSpace (c : Char) : Bool :=
  c = ' ' || c = '\t' || c = '\n' || c = '\r' || c = '\x0b' || c = '\x0c'

/-- Python `str.strip()`. -/
def pyStrip (s : List Char) : List Char :=
  ((s.dropWhile pyIsSpace).reverse.dropWhile pyIsSpace).reverse

/-- One row of a Clayton Excel sheet as `pd.read_excel` types it under the
`dtype` map of `ClaytonExcelParser.parse`: the three identifier columns as
strings, `market_value` as float, `tax_year` as int. -/
structure ClaytonRow where
  parcel_id : List Char
  owner_name : List Char
  property_address : List Char
  market_value : ℚ
  tax_year : ℤ

/-- `ClaytonExcelParser._transform_row`: `str(...)` on a string column is
the identity, so the transform strips the string columns and passes the
numeric columns through `float`/`int` unchanged. -/
def claytonTransformRow (row : ClaytonRow) : PyDict :=
  [("parcel_id", PyVal.str (pyStrip row.parcel_id)),
   ("owner_name", PyVal.str (pyStrip row.owner_name)),
   ("property_address", PyVal.str (pyStrip row.property_address)),
   ("market_value", PyVal.float row.market_value),
   ("tax_year", PyVal.int row.tax_year)]

/-- One row of a Civicsource Excel/CSV table with the columns
`_transform_tabular_data` reads; `Option.none` models an absent column
(hit by `row.get(col, default)`).  Columns carry the types a well-formed
source file yields. -/
structure CivicRow where
  property_id : Option (List Char)
  address : Option (List Char)
  owner_name : Option (List Char)
  assessed_value : Option ℚ
  tax_status : Option (List Char)
  latitude : Option ℚ
  longitude : Option ℚ

/-- `str(row.get(col, ''))` on a string column: identity when present. -/
def rowStr : Option (List Char) → List Char
  | Option.some s => s
  | Option.none => []

/-- `float(row.get(col, 0))` on a float column: identity when present. -/
def rowFloat : Option ℚ → ℚ
  | Option.some q => q
  | Option.none => 0

/-- `CivicsourceParser._transform_tabular_data` applied to the first row. -/
def civicsourceTransformTabular (row : CivicRow) : PyDict :=
  [("property_id", PyVal.str (rowStr row.property_id)),
   ("address", PyVal.str (rowStr row.address)),
   ("owner_name", PyVal.str (rowStr row.owner_name)),
   ("assessed_value", PyVal.float (rowFloat row.assessed_value)),
   ("tax_status", PyVal.str (rowStr row.tax_status)),
   ("coordinates", PyVal.dict
      [("lat", PyVal.float (rowFloat row.latitude)),
       ("lon", PyVal.float (rowFloat row.longitude))])]

/-! ### `clean` and parser resource state -/

/-- A Python instance-attribute slot: `Option.none` when the attribute has
been removed with `del`, otherwise `Option.some v` where `v = Option.none`
models the value `None` and `v = Option.some ()` a loaded table or
session. -/
abbrev Attr := Option (Option Unit)

/-- Reading `self.x` after `del self.x` raises `AttributeError`. -/
def attrRead (name : String) : Attr → Except PyErr (Option Unit)
  | Option.none => .error (.attributeError name)
  | Option.some v => .ok v

structure CivicsourceResources where
  data_frame : Attr
  gis_data : Attr
  deriving Repr, DecidableEq

/-- `CivicsourceParser.clean`:
`if self.data_frame is not None: del self.data_frame`, then the same for
`gis_data`.  `del` removes the instance attribute instead of resetting it
to `None`. -/
def civicsourceClean (s : CivicsourceResources) :
    Except PyErr CivicsourceResources := do
  let df ← attrRead "data_frame" s.data_frame
  let s1 : CivicsourceResources :=
    if df.isSome then { s with data_frame := Option.none } else s
  let g ← attrRead "gis_data" s1.gis_data
  if g.isSome then return { s1 with gis_data := Option.none } else return s1

/-- Fresh `CivicsourceParser.__init__` state: both attributes hold `None`. -/
def civicsourceFresh : CivicsourceResources :=
  { data_frame := Option.some Option.none, gis_data := Option.some Option.none }

/-- State after a successful tabular `parse`: `self.data_frame` holds a
DataFrame, `gis_data` still `None`. -/
def civicsourceAfterParse : CivicsourceResources :=
  { data_frame := Option.some (Option.some ()), gis_data := Option.some Option.none }

structure GovEaseResources where
  data_frame : Attr
  deriving Repr, DecidableEq

/-- `GovEaseParser.clean`: `del self.data_frame` immediately followed by
`self.data_frame = None`, so the attribute survives as `None`. -/
def goveaseClean (s : GovEaseResources) : Except PyErr GovEaseResources := do
  let df ← attrRead "data_frame" s.data_frame
  if df.isSome then return { data_frame := Option.some Option.none }
  else return s

/-! ### DeKalb authentication (src/parsers/civicsource_dekalb.py) -/

structure AuthState where
  auth_token : Option ℕ
  token_expiry : Option ℤ
  deriving Repr, DecidableEq

inductive AuthRequest where
  | refreshReq
  | loginReq
  deriving Repr, DecidableEq

/-- Environment of one `refresh_session` call: the clock and the network
outcome of each endpoint (`Option.none` models a
`requests.exceptions.RequestException`; `Option.some tok` a 2xx JSON
response carrying `tok`). -/
structure AuthEnv where
  now : ℤ
  loginResult : Option ℕ
  refreshResult : Option ℕ
  deriving Repr, DecidableEq

/-- Token lifetime installed by both `authenticate` and a successful
refresh: `datetime.now() + timedelta(hours=24)`, in hours. -/
def tokenLifetime : ℤ := 24

/-- `DeKalbCivicsourceParser.authenticate`: one POST to `auth/login`; on
success installs the token and a 24-hour expiry, on request failure raises
`AuthenticationError`.  The second component records the requests made. -/
def authenticate (env : AuthEnv) (_s : AuthState) :
    Except PyErr (Bool × AuthState) × List AuthRequest :=
  match env.loginResult with
  | Option.some tok =>
      (.ok (true,
        { auth_token := Option.some tok,
          token_expiry := Option.some (env.now + tokenLifetime) }),
       [AuthRequest.loginReq])
  | Option.none =>
      (.error (.authenticationError "Failed to authenticate"),
       [AuthRequest.loginReq])

/-- `DeKalbCivicsourceParser.refresh_session`: with no token or expiry it
authenticates from scratch; with an expired token it makes one POST to
`auth/refresh`, falling back to `authenticate` when that request fails;
with a live token it returns `True` without any request. -/
def refresh_session (env : AuthEnv) (s : AuthState) :
    Except PyErr (Bool × AuthState) × List AuthRequest :=
  match s.auth_token, s.token_expiry with
  | Option.some _, Option.some expiry =>
      if env.now ≥ expiry then
        match env.refreshResult with
        | Option.some newTok =>
            (.ok (true,
              { auth_token := Option.some newTok,
                token_expiry := Option.some (env.now + tokenLifetime) }),
             [AuthRequest.refreshReq])
        | Option.none =>
            let fallback := authenticate env s
            (fallback.1, AuthRequest.refreshReq :: fallback.2)
      else
        (.ok (true, s), [])
  | _, _ => authenticate env s

/-! ### Transactions (src/parsers/utils/db.py, src/parsers/base.py) -/

inductive Outcome where
  | ok
  | exn (e : PyErr)
  deriving Repr, DecidableEq

/-- Code running under zero or more `transaction_scope` context managers:
plain actions (which touch no transaction state and either return or
raise), a `with transaction_scope(connection):` block, and sequencing. -/
inductive Prog where
  | act (o : Outcome)
  | scope (p : Prog)
  | seq (p q : Prog)

/-- The thread-local `_transaction_local.count` plus counters for the
`connection.commit()` and `connection.rollback()` calls made so far. -/
structure TxState where
  count : ℤ
  commits : ℕ
  rollbacks : ℕ
  deriving Repr, DecidableEq

/-- Interpreter for `transaction_scope`: entering a scope increments the
thread-local count; on normal exit it decrements and commits only when the
count returns to zero; on an exception it decrements, rolls back only when
the count returns to zero, and re-raises the same exception. -/
def runProg : Prog → TxState → Outcome × TxState
  | .act o, s => (o, s)
  | .seq p q, s =>
      match runProg p s with
      | (.ok, s1) => runProg q s1
      | (.exn e, s1) => (.exn e, s1)
  | .scope p, s =>
      match runProg p { s with count := s.count + 1 } with
      | (.ok, s1) =>
          let s2 : TxState := { s1 with count := s1.count - 1 }
          if s2.count = 0 then (.ok, { s2 with commits := s2.commits + 1 })
          else (.ok, s2)
      | (.exn e, s1) =>
          let s2 : TxState := { s1 with count := s1.count - 1 }
          if s2.count = 0 then (.exn e, { s2 with rollbacks := s2.rollbacks + 1 })
          else (.exn e, s2)

inductive DBEvent where
  | insertRow
  | commit
  | rollback
  deriving Repr, DecidableEq

/-- `BaseParser.transaction`: raises `DatabaseError` when the parser has
no connection; otherwise runs the body, commits after a successful body,
and on any body exception `e` rolls back and raises
`DatabaseError("Transaction failed: " + str(e))`. -/
def baseTransaction (hasConnection : Bool) (body : List DBEvent × Outcome) :
    List DBEvent × Outcome :=
  if !hasConnection then
    ([], Outcome.exn (.databaseError "No database connection available"))
  else
    match body with
    | (evs, .ok) => (evs ++ [DBEvent.commit], .ok)
    | (evs, .exn e) =>
        (evs ++ [DBEvent.rollback],
         Outcome.exn (.databaseError ("Transaction failed: " ++ e.str)))

/-- `CivicsourceParser.save`: one INSERT executed inside
`self.transaction()`; the inner `try` logs and re-raises an insert failure
unchanged, so the transaction body is the insert attempt with the
insert's outcome. -/
def civicsourceSave (hasConnection : Bool) (insertResult : Outcome) :
    List DBEvent × Outcome :=
  baseTransaction hasConnection ([DBEvent.insertRow], insertResult)

/-! ### Concrete records used by the theorems -/

/-- A Civicsource record that is well-formed except that its required
numeric field `assessed_value` legitimately equals `0.0` (which the
assessed-value range check `[0, 1e9]` itself would accept). -/
def civicZeroAssessedRecord : PyDict :=
  [("property_id", PyVal.str ['A', 'B', 'C', '-', '1', '2', '3', '4', '5']),
   ("address", PyVal.str ['1', ' ', 'E', 'l', 'm']),
   ("owner_name", PyVal.str ['J', 'o', 'h', 'n']),
   ("assessed_value", PyVal.float 0),
   ("tax_status", PyVal.str ['c', 'u', 'r', 'r', 'e', 'n', 't']),
   ("coordinates", PyVal.dict
      [("lat", PyVal.float 40), ("lon", PyVal.float (-74))])]

/-- A DeKalb record that passes every check before the total-due rule,
with `total_due` an integer amount `z`. -/
def dekalbIntRecord (z : ℤ) : PyDict :=
  [("tax_id", PyVal.str ['1', '2', '3', '4', '5', '6', '-', '7', '8']),
   ("address", PyVal.str ['1', ' ', 'E', 'l', 'm']),
   ("owner_name", PyVal.str ['J', 'a', 'n', 'e']),
   ("assessed_value", PyVal.float 100000),
   ("tax_status", PyVal.str ['c', 'u', 'r', 'r', 'e', 'n', 't']),
   ("coordinates", PyVal.dict
      [("lat", PyVal.float (mkRat 337 10)), ("lon", PyVal.float (-84))]),
   ("property_class", PyVal.str ['R', '0', '1']),
   ("total_due", PyVal.int z),
   ("sale_date", PyVal.str ['2', '0', '2', '4', '-', '0', '1', '-', '1', '5'])]

/-! ### Helper lemmas -/

theorem validate_required_fields_false_of_falsy (data : PyDict)
    (required : List String) (f : String) (hf : f ∈ required)
    (hfalsy : (pyGet data f).isTruthy = false) :
    validate_required_fields data required = false := by
  cases hall : validate_required_fields data required with
  | false => rfl
  | true =>
      exfalso
      have := List.all_eq_true.mp hall f hf
      rw [hfalsy] at this
      exact Bool.false_ne_true this

/-! ### Claim theorems -/

theorem matchToks_append (ts : List RTok) (pre : List Char)
    (h : ToksMatch ts pre) :
    ∀ suf, matchToks ts (pre ++ suf) = Option.some suf := by
  induction h with
  | nil => intro suf; rfl
  | digit n cs rest ts hlen hall htail ih =>
      intro suf
      subst hlen
      rw [List.append_assoc]
      simp [matchToks, List.take_left, List.drop_left, hall, ih suf]
  | upper n cs rest ts hlen hall htail ih =>
      intro suf
      subst hlen
      rw [List.append_assoc]
      simp [matchToks, List.take_left, List.drop_left, hall, ih suf]
  | lit c rest ts htail ih =>
      intro suf
      simp [matchToks, ih suf]

theorem matchToks_sound (ts : List RTok) : ∀ (s rest : List Char),
    matchToks ts s = Option.some rest →
    ∃ pre, s = pre ++ rest ∧ ToksMatch ts pre := by
  induction ts with
  | nil =>
      intro s rest h
      simp only [matchToks, Option.some.injEq] at h
      exact ⟨[], by simp [h], ToksMatch.nil⟩
  | cons t ts ih =>
      intro s rest h
      cases t with
      | digit n =>
          simp only [matchToks] at h
          split at h
          case isTrue hcond =>
            obtain ⟨pre', hdrop, htm⟩ := ih (s.drop n) rest h
            simp only [Bool.and_eq_true, decide_eq_true_eq] at hcond
            refine ⟨s.take n ++ pre', ?_, ?_⟩
            · rw [List.append_assoc, ← hdrop, List.take_append_drop]
            · exact ToksMatch.digit n (s.take n) pre' ts hcond.1 hcond.2 htm
          case isFalse hcond => exact absurd h (by simp)
      | upper n =>
          simp only [matchToks] at h
          split at h
          case isTrue hcond =>
            obtain ⟨pre', hdrop, htm⟩ := ih (s.drop n) rest h
            simp only [Bool.and_eq_true, decide_eq_true_eq] at hcond
            refine ⟨s.take n ++ pre', ?_, ?_⟩
            · rw [List.append_assoc, ← hdrop, List.take_append_drop]
            · exact ToksMatch.upper n (s.take n) pre' ts hcond.1 hcond.2 htm
          case isFalse hcond => exact absurd h (by simp)
      | lit c =>
          cases s with
          | nil => exact absurd h (by simp [matchToks])
          | cons c0 s0 =>
              simp only [matchToks] at h
              split at h
              case isTrue hc =>
                obtain ⟨pre', hpre, htm⟩ := ih s0 rest h
                subst hc
                exact ⟨c0 :: pre', by simp [hpre], ToksMatch.lit c0 pre' ts htm⟩
              case isFalse hc => exact absurd h (by simp)

/-- Claim C4 counterexample: against the end-unanchored pattern `\d{2}`
the value `"123"` — of which only the proper prefix `"12"` matches — is
accepted by `validate_string_format`, because `re.match` only anchors at
the start; full-match semantics fails. -/
theorem string_format_prefix_accepted :
    validate_string_format ['1', '2', '3'] ⟨[RTok.digit 2], false⟩ = true ∧
    reMatch ⟨[RTok.digit 2], true⟩ ['1', '2', '3'] = false ∧
    matchToks [RTok.digit 2] ['1', '2', '3'] = Option.some ['3'] := by
  refine ⟨?_, ?_, ?_⟩ <;> decide

/-- Claim C4 (amended): `validate_string_format` has Python `re.match`
semantics — it returns true iff the pattern matches a prefix of the value
anchored at the start; only when the pattern ends in `$` (`endAnchor`, as
every pattern used in this repository does) must the match consume the
entire value, making a proper-prefix-only match rejected. -/
theorem string_format_match_semantics (p : RPattern) (s : List Char) :
    validate_string_format s p = true ↔
      ∃ pre suf, s = pre ++ suf ∧ ToksMatch p.toks pre ∧
        (p.endAnchor = true → suf = []) := by
  unfold validate_string_format reMatch
  constructor
  · intro h
    cases hm : matchToks p.toks s with
    | none => rw [hm] at h; exact absurd h (by simp)
    | some rest =>
        rw [hm] at h
        obtain ⟨pre, hs, htm⟩ := matchToks_sound p.toks s rest hm
        refine ⟨pre, rest, hs, htm, ?_⟩
        intro hEnd
        rw [hEnd] at h
        simpa [List.isEmpty_iff] using h
  · rintro ⟨pre, suf, hs, htm, hend⟩
    rw [hs, matchToks_append p.toks pre htm suf]
    cases hA : p.endAnchor with
    | false => rfl
    | true => rw [hend hA]; rfl

/-- Claim C2: with a database connection, the transaction context used by
`save` commits once on success; on an exception in the body it rolls back
exactly once, never commits, and re-raises the failure wrapped as a
`DatabaseError` — the insert is never followed by a commit on the error
path, so the state change is all-or-nothing. -/
theorem save_transaction_all_or_nothing (e : PyErr) :
    civicsourceSave true Outcome.ok = ([DBEvent.insertRow, DBEvent.commit], Outcome.ok) ∧
    civicsourceSave true (Outcome.exn e) =
      ([DBEvent.insertRow, DBEvent.rollback],
       Outcome.exn (PyErr.databaseError ("Transaction failed: " ++ e.str))) ∧
    (civicsourceSave true Outcome.ok).1.count DBEvent.commit = 1 ∧
    (civicsourceSave true (Outcome.exn e)).1.count DBEvent.commit = 0 ∧
    (civicsourceSave true (Outcome.exn e)).1.count DBEvent.rollback = 1 :=
  ⟨rfl, rfl, rfl, rfl, rfl⟩

/-- Claim C3 counterexample: the tax-amount rule's declared maximum of
$10,000,000 does not pass the check — `validate_tax_amount` uses strict
bounds, even though the generic numeric-range rule accepts the same value
at its maximum. -/
theorem tax_amount_max_bound_rejected :
    validate_numeric_range 10000000 0 10000000 = true ∧
    validate_tax_amount (PyVal.float 10000000) = false := by
  constructor
  · decide
  · decide

/-- Claim C3 (amended): the generic numeric-range rule is inclusive at
both bounds, but `validate_tax_amount` is strict at both of its bounds:
it accepts a float or Decimal `q` exactly when `0 < q < 10,000,000`, so
both `0` and `10,000,000` are rejected. -/
theorem numeric_range_inclusive_tax_amount_strict :
    (∀ value lo hi : ℚ,
      validate_numeric_range value lo hi = true ↔ lo ≤ value ∧ value ≤ hi) ∧
    (∀ q : ℚ,
      validate_tax_amount (PyVal.float q) = true ↔ 0 < q ∧ q < 10000000) ∧
    (∀ q : ℚ,
      validate_tax_amount (PyVal.decimal q) = true ↔ 0 < q ∧ q < 10000000) ∧
    validate_numeric_range 0 0 10000000 = true ∧
    validate_numeric_range 10000000 0 10000000 = true ∧
    validate_tax_amount (PyVal.float 0) = false ∧
    validate_tax_amount (PyVal.float 10000000) = false := by
  refine ⟨?_, ?_, ?_, by decide, by decide, by decide, by decide⟩
  · intro value lo hi
    simp [validate_numeric_range]
  · intro q
    simp [validate_tax_amount]
  · intro q
    simp [validate_tax_amount]

/-- Claim C9: `validate_required_fields` fails any record whose required
field is present but falsy — `0`, `0.0`, `False`, `""` or `[]` — and
consequently `CivicsourceParser.validate` raises its missing-required-
fields `ValidationError` on a record whose required numeric field
`assessed_value` legitimately equals `0.0`. -/
theorem required_fields_reject_falsy (data : PyDict) (required : List String)
    (f : String) (hf : f ∈ required)
    (hfalsy : (pyGet data f).isTruthy = false) :
    validate_required_fields data required = false ∧
    validate_required_fields [("count", PyVal.int 0)] ["count"] = false ∧
    validate_required_fields [("flag", PyVal.bool false)] ["flag"] = false ∧
    validate_required_fields [("name", PyVal.str [])] ["name"] = false ∧
    validate_required_fields [("items", PyVal.list [])] ["items"] = false ∧
    civicsourceValidate civicZeroAssessedRecord =
      Except.error (PyErr.validationError "Missing required fields") :=
  ⟨validate_required_fields_false_of_falsy data required f hf hfalsy,
   rfl, rfl, rfl, rfl, rfl⟩

/-- Witness for `required_fields_reject_falsy` at a record mapping a
required field to the integer `0`. -/
theorem required_fields_reject_falsy_witness :
    validate_required_fields [("total", PyVal.int 0)] ["total"] = false :=
  (required_fields_reject_falsy [("total", PyVal.int 0)] ["total"] "total"
    (List.mem_singleton.mpr rfl) rfl).1

/-- Claim C7 evaluation: after a successful parse has loaded
`self.data_frame`, the first `clean` succeeds but removes the attribute
(`del self.data_frame` with no reset), so the second `clean` raises
`AttributeError` — `clean` is not idempotent for `CivicsourceParser`.
On a freshly constructed parser both calls are no-ops, and
`GovEaseParser.clean`, which reassigns `None` after the `del`, is
idempotent. -/
theorem civicsource_clean_not_idempotent :
    civicsourceClean civicsourceAfterParse =
      Except.ok { data_frame := Option.none, gis_data := Option.some Option.none } ∧
    civicsourceClean { data_frame := Option.none, gis_data := Option.some Option.none } =
      Except.error (PyErr.attributeError "data_frame") ∧
    civicsourceClean civicsourceFresh = Except.ok civicsourceFresh ∧
    goveaseClean { data_frame := Option.some (Option.some ()) } =
      Except.ok { data_frame := Option.some Option.none } ∧
    goveaseClean { data_frame := Option.some Option.none } =
      Except.ok { data_frame := Option.some Option.none } :=
  ⟨rfl, rfl, rfl, rfl, rfl⟩

/-- Claim C10: `validate_tax_amount` returns `false` for every Python int
regardless of magnitude — its type check accepts only `float` and
`Decimal` — so DeKalb `validate` rejects a record whose `total_due` is an
integer amount even when it lies strictly between 0 and 10,000,000. -/
theorem tax_amount_rejects_integers (z : ℤ) (h0 : 0 < z) (hmax : z < 10000000) :
    (∀ w : ℤ, validate_tax_amount (PyVal.int w) = false) ∧
    dekalbValidate (dekalbIntRecord z) =
      Except.error (PyErr.validationError "Invalid total due amount") := by
  refine ⟨fun w => rfl, ?_⟩
  have hz : z ≠ 0 := by omega
  have hreq : validate_required_fields (dekalbIntRecord z) dekalbRequiredFields = true := by
    simp [validate_required_fields, dekalbRequiredFields, dekalbIntRecord, pyGet,
      PyVal.isTruthy, hz]
  simp only [dekalbValidate, dekalbValidateBody, hreq]
  rfl

/-- Witness for `tax_amount_rejects_integers` at the integer amount
5000, strictly between the bounds. -/
theorem tax_amount_rejects_integers_witness :
    validate_tax_amount (PyVal.int 5000) = false ∧
    dekalbValidate (dekalbIntRecord 5000) =
      Except.error (PyErr.validationError "Invalid total due amount") :=
  ⟨(tax_amount_rejects_integers 5000 (by decide) (by decide)).1 5000,
   (tax_amount_rejects_integers 5000 (by decide) (by decide)).2⟩

/-- Claim C5: a record in which some required Civicsource field is missing
makes `validate` raise the missing-required-fields `ValidationError`
(rather than return `False`), whatever the other fields contain — so the
required-fields check runs before, and short-circuits, every per-field
rule. -/
theorem validate_raises_on_missing_required (data : PyDict) (f : String)
    (hf : f ∈ civicsourceRequiredFields)
    (hmissing : pyGet data f = PyVal.none) :
    civicsourceValidate data =
      Except.error (PyErr.validationError "Missing required fields") := by
  have hreq : validate_required_fields data civicsourceRequiredFields = false :=
    validate_required_fields_false_of_falsy data civicsourceRequiredFields f hf
      (by rw [hmissing]; rfl)
  simp only [civicsourceValidate, civicsourceValidateBody, hreq]
  rfl

/-- Witness for `validate_raises_on_missing_required`: a record lacking
`property_id` entirely. -/
theorem validate_raises_on_missing_required_witness :
    civicsourceValidate [("address", PyVal.str ['1'])] =
      Except.error (PyErr.validationError "Missing required fields") :=
  validate_raises_on_missing_required [("address", PyVal.str ['1'])]
    "property_id" (by decide) rfl

/-- Claim C6: for a well-formed input row — cells carrying their declared
types, string cells already free of surrounding whitespace, columns
present — parse's row transform yields a record whose field values equal
the source row's values, for both the Clayton Excel transform and the
Civicsource tabular transform. -/
theorem transform_round_trip
    (crow : ClaytonRow)
    (hp : pyStrip crow.parcel_id = crow.parcel_id)
    (ho : pyStrip crow.owner_name = crow.owner_name)
    (ha : pyStrip crow.property_address = crow.property_address)
    (vrow : CivicRow) (pid addr own status : List Char) (av lat lon : ℚ)
    (h1 : vrow.property_id = Option.some pid)
    (h2 : vrow.address = Option.some addr)
    (h3 : vrow.owner_name = Option.some own)
    (h4 : vrow.assessed_value = Option.some av)
    (h5 : vrow.tax_status = Option.some status)
    (h6 : vrow.latitude = Option.some lat)
    (h7 : vrow.longitude = Option.some lon) :
    (pyGet (claytonTransformRow crow) "parcel_id" = PyVal.str crow.parcel_id ∧
     pyGet (claytonTransformRow crow) "owner_name" = PyVal.str crow.owner_name ∧
     pyGet (claytonTransformRow crow) "property_address" = PyVal.str crow.property_address ∧
     pyGet (claytonTransformRow crow) "market_value" = PyVal.float crow.market_value ∧
     pyGet (claytonTransformRow crow) "tax_year" = PyVal.int crow.tax_year) ∧
    (pyGet (civicsourceTransformTabular vrow) "property_id" = PyVal.str pid ∧
     pyGet (civicsourceTransformTabular vrow) "address" = PyVal.str addr ∧
     pyGet (civicsourceTransformTabular vrow) "owner_name" = PyVal.str own ∧
     pyGet (civicsourceTransformTabular vrow) "assessed_value" = PyVal.float av ∧
     pyGet (civicsourceTransformTabular vrow) "tax_status" = PyVal.str status ∧
     pyGet (civicsourceTransformTabular vrow) "coordinates" =
       PyVal.dict [("lat", PyVal.float lat), ("lon", PyVal.float lon)]) := by
  refine ⟨⟨?_, ?_, ?_, ?_, ?_⟩, ?_, ?_, ?_, ?_, ?_, ?_⟩ <;>
    simp [claytonTransformRow, civicsourceTransformTabular, pyGet, rowStr, rowFloat,
      hp, ho, ha, h1, h2, h3, h4, h5, h6, h7]

/-- Witness for `transform_round_trip`: a property id `"ABC-12345"` read
from the source row appears unchanged in the transformed record. -/
theorem transform_round_trip_witness :
    pyGet (claytonTransformRow ⟨['7'], ['J'], ['E'], 5, 2023⟩) "parcel_id" =
      PyVal.str ['7'] ∧
    pyGet (civicsourceTransformTabular
        ⟨Option.some ['A', 'B', 'C', '-', '1', '2', '3', '4', '5'],
         Option.some ['E'], Option.some ['J'], Option.some 150000,
         Option.some ['c'], Option.some 40, Option.some (-74)⟩) "property_id" =
      PyVal.str ['A', 'B', 'C', '-', '1', '2', '3', '4', '5'] :=
  ⟨(transform_round_trip ⟨['7'], ['J'], ['E'], 5, 2023⟩ (by decide) (by decide)
      (by decide) ⟨Option.some ['A', 'B', 'C', '-', '1', '2', '3', '4', '5'],
        Option.some ['E'], Option.some ['J'], Option.some 150000,
        Option.some ['c'], Option.some 40, Option.some (-74)⟩
      ['A', 'B', 'C', '-', '1', '2', '3', '4', '5'] ['E'] ['J'] ['c'] 150000 40 (-74)
      rfl rfl rfl rfl rfl rfl rfl).1.1,
   (transform_round_trip ⟨['7'], ['J'], ['E'], 5, 2023⟩ (by decide) (by decide)
      (by decide) ⟨Option.some ['A', 'B', 'C', '-', '1', '2', '3', '4', '5'],
        Option.some ['E'], Option.some ['J'], Option.some 150000,
        Option.some ['c'], Option.some 40, Option.some (-74)⟩
      ['A', 'B', 'C', '-', '1', '2', '3', '4', '5'] ['E'] ['J'] ['c'] 150000 40 (-74)
      rfl rfl rfl rfl rfl rfl rfl).2.1⟩

/-- Claim C8: with an expired token (now at or past `token_expiry`),
`refresh_session` makes exactly one refresh request, which comes first;
if that request fails it falls back to exactly one full `authenticate`
(login) call rather than retrying the refresh; a live token triggers no
network request at all. -/
theorem refresh_session_behavior (env : AuthEnv) (tok : ℕ) (expiry : ℤ) :
    (env.now ≥ expiry → ∀ t, env.refreshResult = Option.some t →
      refresh_session env ⟨Option.some tok, Option.some expiry⟩ =
        (Except.ok (true, ⟨Option.some t, Option.some (env.now + tokenLifetime)⟩),
         [AuthRequest.refreshReq])) ∧
    (env.now ≥ expiry → env.refreshResult = Option.none →
      (refresh_session env ⟨Option.some tok, Option.some expiry⟩).2 =
        [AuthRequest.refreshReq, AuthRequest.loginReq]) ∧
    (env.now < expiry →
      refresh_session env ⟨Option.some tok, Option.some expiry⟩ =
        (Except.ok (true, ⟨Option.some tok, Option.some expiry⟩), [])) := by
  refine ⟨?_, ?_, ?_⟩
  · intro hexp t hr
    simp [refresh_session, hexp, hr]
  · intro hexp hr
    cases hl : env.loginResult with
    | some t => simp [refresh_session, hexp, hr, authenticate, hl]
    | none => simp [refresh_session, hexp, hr, authenticate, hl]
  · intro hlive
    simp [refresh_session, not_le.mpr hlive]

/-- Witness for `refresh_session_behavior`: an expired token whose
refresh request fails, followed by a live-token call. -/
theorem refresh_session_behavior_witness :
    (refresh_session ⟨100, Option.some 7, Option.none⟩
        ⟨Option.some 1, Option.some 50⟩).2 =
      [AuthRequest.refreshReq, AuthRequest.loginReq] ∧
    refresh_session ⟨100, Option.some 7, Option.some 9⟩
        ⟨Option.some 1, Option.some 500⟩ =
      (Except.ok (true, ⟨Option.some 1, Option.some 500⟩), []) :=
  ⟨(refresh_session_behavior ⟨100, Option.some 7, Option.none⟩ 1 50).2.1
      (by decide) rfl,
   (refresh_session_behavior ⟨100, Option.some 7, Option.some 9⟩ 1 500).2.2
      (by decide)⟩

theorem runProg_count (p : Prog) : ∀ s : TxState, (runProg p s).2.count = s.count := by
  induction p with
  | act o => intro s; rfl
  | seq p q ihp ihq =>
      intro s
      rcases hps : runProg p s with ⟨o, s1⟩
      have hc1 : s1.count = s.count := by
        have := ihp s; rw [hps] at this; exact this
      cases o with
      | ok =>
          have h2 := ihq s1
          simp only [runProg, hps]
          rw [h2, hc1]
      | exn e => simp only [runProg, hps]; exact hc1
  | scope p ih =>
      intro s
      rcases hps : runProg p { s with count := s.count + 1 } with ⟨o, s1⟩
      have hc1 : s1.count = s.count + 1 := by
        have := ih { s with count := s.count + 1 }; rw [hps] at this; exact this
      cases o with
      | ok =>
          simp only [runProg, hps]
          split <;> simp <;> omega
      | exn e =>
          simp only [runProg, hps]
          split <;> simp <;> omega

/-- Code running with the thread-local count at 1 or more — that is,
inside some enclosing `transaction_scope` — never commits and never rolls
back: inner scopes leave both counters untouched. -/
theorem runProg_frame (p : Prog) : ∀ s : TxState, 1 ≤ s.count →
    (runProg p s).2.commits = s.commits ∧
    (runProg p s).2.rollbacks = s.rollbacks := by
  induction p with
  | act o => intro s _; exact ⟨rfl, rfl⟩
  | seq p q ihp ihq =>
      intro s hs
      rcases hps : runProg p s with ⟨o, s1⟩
      have hc1 : s1.count = s.count := by
        have := runProg_count p s; rw [hps] at this; exact this
      have hf1 := ihp s hs
      rw [hps] at hf1
      cases o with
      | ok =>
          have hf2 := ihq s1 (by omega)
          simp only [runProg, hps]
          exact ⟨hf2.1.trans hf1.1, hf2.2.trans hf1.2⟩
      | exn e => simp only [runProg, hps]; exact hf1
  | scope p ih =>
      intro s hs
      rcases hps : runProg p { s with count := s.count + 1 } with ⟨o, s1⟩
      have hc1 : s1.count = s.count + 1 := by
        have := runProg_count p { s with count := s.count + 1 }
        rw [hps] at this; exact this
      have hf1 := ih { s with count := s.count + 1 } (by simp; omega)
      rw [hps] at hf1
      simp only at hf1
      have hne : ¬(s1.count - 1 = 0) := by omega
      cases o with
      | ok => simp only [runProg, hps]; split <;> simp_all
      | exn e => simp only [runProg, hps]; split <;> simp_all

/-- Claim C1: running any nesting of `transaction_scope` blocks from a
thread whose transaction count is 0, a successful run of the outermost
scope calls `connection.commit()` exactly once (inner scopes add no
commit), and when the body raises, `connection.rollback()` is called
exactly once — by the outermost scope — no commit happens, and the very
exception raised by the body is re-raised unchanged. -/
theorem transaction_scope_outermost (p : Prog) (s : TxState) (hs : s.count = 0) :
    (∀ s', runProg (Prog.scope p) s = (Outcome.ok, s') →
        s'.commits = s.commits + 1 ∧ s'.rollbacks = s.rollbacks) ∧
    (∀ e s', runProg (Prog.scope p) s = (Outcome.exn e, s') →
        s'.commits = s.commits ∧ s'.rollbacks = s.rollbacks + 1 ∧
        (runProg p { s with count := s.count + 1 }).1 = Outcome.exn e) := by
  rcases hps : runProg p { s with count := s.count + 1 } with ⟨o, s1⟩
  have hc1 : s1.count = s.count + 1 := by
    have := runProg_count p { s with count := s.count + 1 }
    rw [hps] at this; exact this
  have hf1 := runProg_frame p { s with count := s.count + 1 } (by simp; omega)
  rw [hps] at hf1
  simp only at hf1
  have hz : s1.count - 1 = 0 := by omega
  constructor
  · intro s' h
    cases o with
    | ok =>
        simp only [runProg, hps, hz, if_pos] at h
        simp only [Prod.mk.injEq, true_and] at h
        subst h
        exact ⟨by simp [hf1.1], by simp [hf1.2]⟩
    | exn e1 =>
        simp only [runProg, hps, hz, if_pos] at h
        simp at h
  · intro e s' h
    cases o with
    | ok =>
        simp only [runProg, hps, hz, if_pos] at h
        simp at h
    | exn e1 =>
        simp only [runProg, hps, hz, if_pos] at h
        simp only [Prod.mk.injEq, Outcome.exn.injEq] at h
        obtain ⟨he, hstate⟩ := h
        subst he
        subst hstate
        exact ⟨by simp [hf1.1], by simp [hf1.2], rfl⟩

/-- Witness for `transaction_scope_outermost`: two nested empty scopes
from a fresh thread-local state commit exactly once. -/
theorem transaction_scope_outermost_witness :
    (⟨0, 5, 7⟩ : TxState).count = 0 ∧
    ((⟨0, 6, 7⟩ : TxState).commits = (⟨0, 5, 7⟩ : TxState).commits + 1 ∧
     (⟨0, 6, 7⟩ : TxState).rollbacks = (⟨0, 5, 7⟩ : TxState).rollbacks) :=
  ⟨rfl,
   (transaction_scope_outermost (Prog.scope (Prog.act Outcome.ok)) ⟨0, 5, 7⟩ rfl).1
     ⟨0, 6, 7⟩ rfl⟩

end Sparc2
